import Mathlib

/-
  Verification development for the DFIR-ORC console output redirection
  component (src/src/OrcCommand/StandardOutputConsoleRedirection.h) and the
  CI build wrapper script (src/unnamed/part_000, a PowerShell module with
  Build-Orc, Find-CMake and Invoke-NativeCommand).

  The repository ships only the header of StandardOutputConsoleRedirection:
  the out-of-line member definitions and the StreamRedirector template from
  Utils/StdStream/StreamRedirector.h are not under src/.  The state machine
  below is therefore modelled from the spec (sections 3, 4 and 7), with the
  channel layout taken from the header: the class owns exactly two
  redirectors, a narrow one (m_redirector, bound to the narrow standard
  output stream m_cout) and a wide one (m_wredirector, bound to the wide
  standard output stream m_wcout).  Buffers are identified by natural
  numbers; a stream slot records the identifier of the buffer currently
  installed on it, and a write through a stream is received by that buffer.
-/

namespace OrcSpec

/-- Modelled from the spec: the StreamRedirector template of
Utils/StdStream/StreamRedirector.h is not under src/.  One redirection
channel (spec section 3): an exclusively owned replacement buffer, the
captured non-owning original buffer (none when not active), and the
active flag. -/
structure StreamRedirector where
  replacement : Nat
  original : Option Nat
  active : Bool
deriving DecidableEq, Repr

/-- The aggregate of StandardOutputConsoleRedirection.h lines 26-33: one
narrow channel (m_redirector) and one wide channel (m_wredirector). -/
structure StandardOutputConsoleRedirection where
  m_redirector : StreamRedirector
  m_wredirector : StreamRedirector
deriving DecidableEq, Repr

/-- The process standard stream slots: the buffer currently installed on
each of the four standard streams (narrow and wide standard output, narrow
and wide standard error), plus the formatting state of the streams, which
a buffer swap never touches. -/
structure Streams where
  coutBuf : Nat
  wcoutBuf : Nat
  cerrBuf : Nat
  wcerrBuf : Nat
  fmtState : Nat
deriving DecidableEq, Repr

/-- The four standard streams a process write can go through. -/
inductive StdStream where
  | coutS
  | wcoutS
  | cerrS
  | wcerrS
deriving DecidableEq, Repr

/-- Destination of a write made through a standard stream: the buffer
currently installed on that stream. -/
def writeDest (s : Streams) : StdStream → Nat
  | StdStream.coutS => s.coutBuf
  | StdStream.wcoutS => s.wcoutBuf
  | StdStream.cerrS => s.cerrBuf
  | StdStream.wcerrS => s.wcerrBuf

/-- Modelled from the spec: activation of one channel (spec section 4.1).
Capture the stream buffer currently installed into original, then hand out
the replacement buffer for installation.  Activating an already active
channel is a misuse error (spec section 7), signalled by none. -/
def StreamRedirector.take (r : StreamRedirector) (streamBuf : Nat) :
    Option (StreamRedirector × Nat) :=
  match r.active with
  | true => none
  | false =>
    some ({ r with original := some streamBuf, active := true }, r.replacement)

/-- Modelled from the spec: deactivation of one channel (spec section 4.1).
Hand back the captured original buffer for reinstallation and clear the
captured reference.  Deactivating an inactive channel is a misuse error
(spec section 7), signalled by none. -/
def StreamRedirector.reset (r : StreamRedirector) :
    Option (StreamRedirector × Nat) :=
  match r.active with
  | false => none
  | true =>
    match r.original with
    | none => none
    | some ob =>
      some ({ r with original := none, active := false }, ob)

/-- Outcome of an Enable attempt: success, installation failure (with the
rolled back redirector and stream state), or misuse. -/
inductive EnableResult where
  | ok (c : StandardOutputConsoleRedirection) (s : Streams)
  | failed (c : StandardOutputConsoleRedirection) (s : Streams)
  | misuse
deriving DecidableEq, Repr

/-- Modelled from the spec: StandardOutputConsoleRedirection::Enable (the
member definition is not under src/), with an explicit failure oracle for
the two buffer installations (spec section 4.1 failure semantics).  The
narrow channel swaps first; if the wide installation then fails, the
already succeeded narrow swap is rolled back so the operation is all or
nothing.  Enabling while already active is a misuse error. -/
def enableWith (failNarrow failWide : Bool)
    (c : StandardOutputConsoleRedirection) (s : Streams) : EnableResult :=
  match c.m_redirector.active || c.m_wredirector.active with
  | true => EnableResult.misuse
  | false =>
    match failNarrow with
    | true => EnableResult.failed c s
    | false =>
      let rn : StreamRedirector :=
        { c.m_redirector with original := some s.coutBuf, active := true }
      let s1 : Streams := { s with coutBuf := c.m_redirector.replacement }
      match failWide with
      | true =>
        let rnBack : StreamRedirector :=
          { rn with original := none, active := false }
        let sBack : Streams := { s1 with coutBuf := s.coutBuf }
        EnableResult.failed { c with m_redirector := rnBack } sBack
      | false =>
        let rw : StreamRedirector :=
          { c.m_wredirector with original := some s1.wcoutBuf, active := true }
        let s2 : Streams := { s1 with wcoutBuf := c.m_wredirector.replacement }
        EnableResult.ok
          { c with m_redirector := rn, m_wredirector := rw } s2

/-- Enable on the normal path: in the target environment buffer
installation cannot fail (spec section 4.1), so both failure flags are
false.  none signals the misuse error. -/
def enable (c : StandardOutputConsoleRedirection) (s : Streams) :
    Option (StandardOutputConsoleRedirection × Streams) :=
  match enableWith false false c s with
  | EnableResult.ok c' s' => some (c', s')
  | EnableResult.failed _ _ => none
  | EnableResult.misuse => none

/-- Modelled from the spec: StandardOutputConsoleRedirection::Disable (the
member definition is not under src/).  Each channel reinstalls its captured
original buffer and clears the captured reference (spec section 4.1).
Disabling while inactive is a misuse error, signalled by none. -/
def disable (c : StandardOutputConsoleRedirection) (s : Streams) :
    Option (StandardOutputConsoleRedirection × Streams) :=
  match c.m_redirector.reset, c.m_wredirector.reset with
  | some (rn, ob), some (rw, wob) =>
    some ({ c with m_redirector := rn, m_wredirector := rw },
          { s with coutBuf := ob, wcoutBuf := wob })
  | _, _ => none

/-- Modelled from the spec: the destructor (header line 21; member
definition not under src/) performs the equivalent of Disable when the
redirector is still active before releasing the owned buffers (spec
section 4.1 destruction).  Returns the stream state left behind after
destruction. -/
def destroy (c : StandardOutputConsoleRedirection) (s : Streams) : Streams :=
  match c.m_redirector.active || c.m_wredirector.active with
  | true =>
    match disable c s with
    | some (_, s') => s'
    | none => s
  | false => s

/-- A redirector in the clean inactive state: both channels inactive with
the captured reference cleared (the state after construction or after a
completed Disable). -/
def inactiveClean (c : StandardOutputConsoleRedirection) : Prop :=
  c.m_redirector.active = false ∧ c.m_redirector.original = none ∧
  c.m_wredirector.active = false ∧ c.m_wredirector.original = none

instance (c : StandardOutputConsoleRedirection) : Decidable (inactiveClean c) := by
  unfold inactiveClean
  infer_instance

/-- An event driven through the public surface: an Enable call, a Disable
call, or a write through one of the four standard streams. -/
inductive Event where
  | enableEv
  | disableEv
  | writeEv (st : StdStream)
deriving DecidableEq, Repr

/-- Run a list of events.  Enable and Disable update the redirector and
the streams (failing the whole run on a misuse error); a write logs the
buffer that receives it.  Returns the final state and the list of write
destinations in order. -/
def run (c : StandardOutputConsoleRedirection) (s : Streams) :
    List Event → Option (StandardOutputConsoleRedirection × Streams × List Nat)
  | [] => some (c, s, [])
  | Event.enableEv :: es =>
    match enable c s with
    | none => none
    | some (c', s') => run c' s' es
  | Event.disableEv :: es =>
    match disable c s with
    | none => none
    | some (c', s') => run c' s' es
  | Event.writeEv st :: es =>
    match run c s es with
    | none => none
    | some (c', s', log) => some (c', s', writeDest s st :: log)

/-- Well-formed call sequences (spec section 8): Enable and Disable
strictly alternate, and from the inactive side the first of them is an
Enable.  The Bool argument is whether a window is currently open. -/
def wellFormed : Bool → List Event → Bool
  | _, [] => true
  | false, Event.enableEv :: es => wellFormed true es
  | true, Event.enableEv :: _ => false
  | true, Event.disableEv :: es => wellFormed false es
  | false, Event.disableEv :: _ => false
  | a, Event.writeEv _ :: es => wellFormed a es

/-- Whether a window is open after the events have been processed. -/
def finalActive : Bool → List Event → Bool
  | a, [] => a
  | _, Event.enableEv :: es => finalActive true es
  | _, Event.disableEv :: es => finalActive false es
  | a, Event.writeEv _ :: es => finalActive a es

/-- The destinations the spec demands (spec sections 4.1 and 8): a write
made inside an Enable/Disable window reaches the replacement buffer of its
channel (r1 narrow, r2 wide); a write outside any window reaches the
original destination (o1 narrow, o2 wide); the standard error streams
always reach their own destinations (e1 narrow, e2 wide). -/
def expectedLog (r1 r2 o1 o2 e1 e2 : Nat) : Bool → List Event → List Nat
  | _, [] => []
  | _, Event.enableEv :: es => expectedLog r1 r2 o1 o2 e1 e2 true es
  | _, Event.disableEv :: es => expectedLog r1 r2 o1 o2 e1 e2 false es
  | a, Event.writeEv st :: es =>
    (match st with
     | StdStream.coutS => if a then r1 else o1
     | StdStream.wcoutS => if a then r2 else o2
     | StdStream.cerrS => e1
     | StdStream.wcerrS => e2) :: expectedLog r1 r2 o1 o2 e1 e2 a es

/-- The redirector state in a run: both channels inactive and clean when
no window is open, both channels active with the captured originals when a
window is open. -/
def confC (r1 r2 o1 o2 : Nat) : Bool → StandardOutputConsoleRedirection
  | false => ⟨⟨r1, none, false⟩, ⟨r2, none, false⟩⟩
  | true => ⟨⟨r1, some o1, true⟩, ⟨r2, some o2, true⟩⟩

/-- The stream state in a run: the replacement buffers are installed on
the standard output streams exactly while a window is open; the standard
error streams and the formatting state never change. -/
def confS (r1 r2 o1 o2 e1 e2 fmt : Nat) : Bool → Streams
  | false => ⟨o1, o2, e1, e2, fmt⟩
  | true => ⟨r1, r2, e1, e2, fmt⟩

/-- Reachability through the public operations (header lines 20-24).
Construction produces a clean inactive redirector whose two replacement
buffers are freshly allocated, hence distinct from the buffers currently
installed on the standard output streams; Enable and Disable step the
state when they succeed.  A write changes no state, and destruction ends
the object, so neither adds a step. -/
inductive Reachable : StandardOutputConsoleRedirection → Streams → Prop where
  | construct (rn rw : Nat) (s : Streams)
      (hn : s.coutBuf ≠ rn) (hw : s.wcoutBuf ≠ rw) :
      Reachable ⟨⟨rn, none, false⟩, ⟨rw, none, false⟩⟩ s
  | enableStep (c c' : StandardOutputConsoleRedirection) (s s' : Streams) :
      Reachable c s → enable c s = some (c', s') → Reachable c' s'
  | disableStep (c c' : StandardOutputConsoleRedirection) (s s' : Streams) :
      Reachable c s → disable c s = some (c', s') → Reachable c' s'

/-- The per-channel invariant of spec section 3: the replacement buffer is
installed on the stream if and only if the channel is active, and the
captured original is a valid buffer distinct from the replacement while
active and is cleared once deactivated. -/
def ChannelInv (r : StreamRedirector) (buf : Nat) : Prop :=
  match r.active with
  | true => buf = r.replacement ∧ ∃ ob, r.original = some ob ∧ ob ≠ r.replacement
  | false => buf ≠ r.replacement ∧ r.original = none

/-- The aggregate invariant: both channels satisfy the channel invariant
on their stream, and the two channels are active or inactive together. -/
def Inv (c : StandardOutputConsoleRedirection) (s : Streams) : Prop :=
  ChannelInv c.m_redirector s.coutBuf ∧ ChannelInv c.m_wredirector s.wcoutBuf ∧
  c.m_redirector.active = c.m_wredirector.active

/- ---------------------------------------------------------------------
   The CI build wrapper (src/unnamed/part_000).
   --------------------------------------------------------------------- -/

/-- Invoke-NativeCommand (part_000 lines 247-268): run the native command,
wait, and test the exit code with the PowerShell boolean conversion of an
integer, which is false exactly on zero.  On a truthy exit code the
function throws, modelled as the error carrying the exit code; otherwise
it returns normally. -/
def invokeNativeCommand (exitCode : Int) : Except Int Unit :=
  match decide (exitCode = 0) with
  | true => Except.ok ()
  | false => Except.error exitCode

/-- The probed cmake.exe glob locations of Find-CMake
(part_000 lines 213-217). -/
def cmakeLocations : List String :=
  ["c:\\Program Files\\Microsoft Visual Studio\\2022\\*\\Common7\\IDE\\CommonExtensions\\Microsoft\\CMake\\CMake\\bin\\cmake.exe",
   "c:\\Program Files (x86)\\Microsoft Visual Studio\\2019\\*\\Common7\\IDE\\CommonExtensions\\Microsoft\\CMake\\CMake\\bin\\cmake.exe",
   "c:\\Program Files (x86)\\Microsoft Visual Studio\\*\\*\\Common7\\IDE\\CommonExtensions\\Microsoft\\CMake\\CMake\\bin\\cmake.exe"]

/-- The location loop of Find-CMake (part_000 lines 219-226): return the
first probed location that resolves; fall through (none) otherwise. -/
def firstFound (probe : String → Option String) : List String → Option String
  | [] => none
  | l :: ls =>
    match probe l with
    | some p => some p
    | none => firstFound probe ls

/-- Find-CMake (part_000 lines 205-227): prefer cmake.exe from the PATH
(Get-Command), else probe the Visual Studio locations in order. -/
def findCMake (onPath : Option String) (probe : String → Option String) :
    Option String :=
  match onPath with
  | some p => some p
  | none => firstFound probe cmakeLocations

/-- One CMake invocation made by Build-Orc through Invoke-NativeCommand. -/
inductive CMakeStep where
  | version
  | configure (arch config : String)
  | build (arch config : String)
  | install (arch config : String)
deriving DecidableEq, Repr

/-- Build-Orc (part_000 lines 169-202), reduced to its CMake invocation
trace.  If Find-CMake yields nothing, Build-Orc writes an error and
returns at once (lines 170-174), before any CMake step.  Otherwise it
runs cmake --version, then for every architecture and every configuration
a configure, a build and an install step. -/
def buildOrc (onPath : Option String) (probe : String → Option String)
    (archs configs : List String) : Except String (List CMakeStep) :=
  match findCMake onPath probe with
  | none => Except.error "Cannot find cmake.exe"
  | some _ =>
    Except.ok
      (CMakeStep.version ::
        archs.flatMap (fun a =>
          configs.flatMap (fun cf =>
            [CMakeStep.configure a cf, CMakeStep.build a cf,
             CMakeStep.install a cf])))

/- ---------------------------------------------------------------------
   Supporting lemmas.
   --------------------------------------------------------------------- -/

lemma enable_conf (r1 r2 o1 o2 e1 e2 fmt : Nat) :
    enable (confC r1 r2 o1 o2 false) (confS r1 r2 o1 o2 e1 e2 fmt false)
      = some (confC r1 r2 o1 o2 true, confS r1 r2 o1 o2 e1 e2 fmt true) := rfl

lemma disable_conf (r1 r2 o1 o2 e1 e2 fmt : Nat) :
    disable (confC r1 r2 o1 o2 true) (confS r1 r2 o1 o2 e1 e2 fmt true)
      = some (confC r1 r2 o1 o2 false, confS r1 r2 o1 o2 e1 e2 fmt false) := rfl

/-- Core trace lemma: from either configuration, a well-formed event list
runs without error, ends in the configuration given by finalActive, and
logs exactly the destinations of expectedLog. -/
lemma run_conf (r1 r2 o1 o2 e1 e2 fmt : Nat) :
    ∀ (es : List Event) (a : Bool), wellFormed a es = true →
    run (confC r1 r2 o1 o2 a) (confS r1 r2 o1 o2 e1 e2 fmt a) es
      = some (confC r1 r2 o1 o2 (finalActive a es),
              confS r1 r2 o1 o2 e1 e2 fmt (finalActive a es),
              expectedLog r1 r2 o1 o2 e1 e2 a es) := by
  intro es
  induction es with
  | nil =>
    intro a _
    cases a <;> rfl
  | cons e es ih =>
    intro a h
    cases e with
    | enableEv =>
      cases a with
      | true => simp [wellFormed] at h
      | false =>
        have h' : wellFormed true es = true := h
        calc run (confC r1 r2 o1 o2 false)
                 (confS r1 r2 o1 o2 e1 e2 fmt false) (Event.enableEv :: es)
            = run (confC r1 r2 o1 o2 true)
                  (confS r1 r2 o1 o2 e1 e2 fmt true) es := by
              simp [run, enable_conf]
          _ = some (confC r1 r2 o1 o2 (finalActive false (Event.enableEv :: es)),
                    confS r1 r2 o1 o2 e1 e2 fmt
                      (finalActive false (Event.enableEv :: es)),
                    expectedLog r1 r2 o1 o2 e1 e2 false (Event.enableEv :: es)) :=
              ih true h'
    | disableEv =>
      cases a with
      | false => simp [wellFormed] at h
      | true =>
        have h' : wellFormed false es = true := h
        calc run (confC r1 r2 o1 o2 true)
                 (confS r1 r2 o1 o2 e1 e2 fmt true) (Event.disableEv :: es)
            = run (confC r1 r2 o1 o2 false)
                  (confS r1 r2 o1 o2 e1 e2 fmt false) es := by
              simp [run, disable_conf]
          _ = some (confC r1 r2 o1 o2 (finalActive true (Event.disableEv :: es)),
                    confS r1 r2 o1 o2 e1 e2 fmt
                      (finalActive true (Event.disableEv :: es)),
                    expectedLog r1 r2 o1 o2 e1 e2 true (Event.disableEv :: es)) :=
              ih false h'
    | writeEv st =>
      have h' : wellFormed a es = true := by
        cases a <;> simpa [wellFormed] using h
      have hr := ih a h'
      simp only [run, hr]
      cases a <;> cases st <;> rfl

/-- Every state reachable through the public operations satisfies the
aggregate invariant. -/
lemma reachable_inv (c : StandardOutputConsoleRedirection) (s : Streams)
    (h : Reachable c s) : Inv c s := by
  induction h with
  | construct rn rw s hn hw =>
    exact ⟨⟨hn, rfl⟩, ⟨hw, rfl⟩, rfl⟩
  | enableStep c c' s s' hr heq ih =>
    obtain ⟨⟨rn, orign, an⟩, ⟨rw, origw, aw⟩⟩ := c
    obtain ⟨cb, wb, eb, web, fm⟩ := s
    cases an with
    | true => simp [enable, enableWith] at heq
    | false =>
      cases aw with
      | true => simp [enable, enableWith] at heq
      | false =>
        simp only [enable, enableWith, Option.some.injEq] at heq
        obtain ⟨rfl, rfl⟩ := heq
        exact ⟨⟨rfl, cb, rfl, ih.1.1⟩, ⟨rfl, wb, rfl, ih.2.1.1⟩, rfl⟩
  | disableStep c c' s s' hr heq ih =>
    obtain ⟨⟨rn, orign, an⟩, ⟨rw, origw, aw⟩⟩ := c
    obtain ⟨cb, wb, eb, web, fm⟩ := s
    cases an with
    | false => simp [disable, StreamRedirector.reset] at heq
    | true =>
      cases aw with
      | false => simp [disable, StreamRedirector.reset] at heq
      | true =>
        cases orign with
        | none => simp [disable, StreamRedirector.reset] at heq
        | some ob =>
          cases origw with
          | none => simp [disable, StreamRedirector.reset] at heq
          | some wob =>
            simp only [disable, StreamRedirector.reset, Option.some.injEq,
              Prod.mk.injEq] at heq
            obtain ⟨rfl, rfl⟩ := heq
            have hne : ob ≠ rn := by
              obtain ⟨ob', hob, hne⟩ := ih.1.2
              cases Option.some.inj hob
              exact hne
            have hwne : wob ≠ rw := by
              obtain ⟨wob', hwob, hwne⟩ := ih.2.1.2
              cases Option.some.inj hwob
              exact hwne
            exact ⟨⟨hne, rfl⟩, ⟨hwne, rfl⟩, rfl⟩

/-- A helper for claim C10: if the probe resolves no location in a list,
the Find-CMake location loop falls through. -/
lemma firstFound_none (probe : String → Option String) :
    ∀ ls : List String, (∀ loc ∈ ls, probe loc = none) →
      firstFound probe ls = none := by
  intro ls
  induction ls with
  | nil => intro _; rfl
  | cons l ls ih =>
    intro h
    have hl : probe l = none := h l (List.mem_cons_self l ls)
    have ht : firstFound probe ls = none :=
      ih (fun x hx => h x (List.mem_cons_of_mem _ hx))
    simp [firstFound, hl, ht]

/- ---------------------------------------------------------------------
   Claim theorems.
   --------------------------------------------------------------------- -/

/-- Claim C1: for every well-formed strictly alternating sequence of
Enable/Disable calls starting with Enable, a run from the clean inactive
configuration succeeds and every write lands as the spec demands: writes
made inside an Enable/Disable window are received by the replacement
buffer of their channel (r1 narrow, r2 wide) and writes made outside any
window reach the original destination (o1 narrow, o2 wide), as recorded
by expectedLog. -/
theorem redirection_routes_writes_per_window (r1 r2 o1 o2 e1 e2 fmt : Nat)
    (es : List Event) (h : wellFormed false es = true) :
    run (confC r1 r2 o1 o2 false) (confS r1 r2 o1 o2 e1 e2 fmt false) es
      = some (confC r1 r2 o1 o2 (finalActive false es),
              confS r1 r2 o1 o2 e1 e2 fmt (finalActive false es),
              expectedLog r1 r2 o1 o2 e1 e2 false es) :=
  run_conf r1 r2 o1 o2 e1 e2 fmt es false h

/-- Witness for claim C1 on the scenario of spec section 8: write, enable,
write, disable, write; the enabled write is received by the replacement
buffer 10 and the other two by the original destination 0. -/
theorem redirection_routes_writes_per_window_witness :
    run (confC 10 11 0 1 false) (confS 10 11 0 1 2 3 7 false)
        [Event.writeEv StdStream.coutS, Event.enableEv,
         Event.writeEv StdStream.coutS, Event.disableEv,
         Event.writeEv StdStream.coutS]
      = some (confC 10 11 0 1 false, confS 10 11 0 1 2 3 7 false,
              [0, 10, 0]) := by
  have h := redirection_routes_writes_per_window 10 11 0 1 2 3 7
    [Event.writeEv StdStream.coutS, Event.enableEv,
     Event.writeEv StdStream.coutS, Event.disableEv,
     Event.writeEv StdStream.coutS] (by decide)
  exact h

/-- Claim C2: from any inactive redirector state, Enable followed by
Disable is a round trip: the redirector and the streams, destinations and
formatting state alike, are exactly as immediately before the Enable. -/
theorem enable_disable_roundtrip (c : StandardOutputConsoleRedirection)
    (s : Streams) (h : inactiveClean c) :
    (enable c s).bind (fun p => disable p.1 p.2) = some (c, s) := by
  obtain ⟨⟨rn, orign, an⟩, ⟨rw, origw, aw⟩⟩ := c
  simp only [inactiveClean] at h
  obtain ⟨rfl, rfl, rfl, rfl⟩ := h
  rfl

/-- Witness for claim C2 at a concrete inactive state. -/
theorem enable_disable_roundtrip_witness :
    (enable (confC 10 11 0 1 false) (confS 10 11 0 1 2 3 7 false)).bind
        (fun p => disable p.1 p.2)
      = some (confC 10 11 0 1 false, confS 10 11 0 1 2 3 7 false) :=
  enable_disable_roundtrip _ _ (by decide)

/-- Claim C3 counterexample: with replacement buffers 10 and 11 and the
narrow and wide standard error destinations 2 and 3, the two standard
error writes made inside an active window are received by buffers 2 and 3,
their pre-redirection destinations, and not by any buffer the redirector
owns: the standard error streams are not intercepted, contrary to the
claim that both standard output and standard error are rerouted. -/
theorem stderr_not_intercepted_cex :
    (run (confC 10 11 0 1 false) (confS 10 11 0 1 2 3 7 false)
        [Event.enableEv, Event.writeEv StdStream.cerrS,
         Event.writeEv StdStream.wcerrS, Event.disableEv]).map
        (fun p => p.2.2) = some [2, 3] ∧
    (confS 10 11 0 1 2 3 7 false).cerrBuf = 2 ∧
    (confS 10 11 0 1 2 3 7 false).wcerrBuf = 3 ∧
    (confC 10 11 0 1 false).m_redirector.replacement = 10 ∧
    (confC 10 11 0 1 false).m_wredirector.replacement = 11 := by
  decide

/-- Claim C3 amended: while redirection is active the component
intercepts and reroutes the standard output stream in both its narrow and
wide character variants; the standard error streams are not redirected
and keep their original destinations. -/
theorem stdout_redirected_stderr_untouched (r1 r2 o1 o2 e1 e2 fmt : Nat) :
    ∃ c' s',
      enable (confC r1 r2 o1 o2 false) (confS r1 r2 o1 o2 e1 e2 fmt false)
        = some (c', s') ∧
      writeDest s' StdStream.coutS = r1 ∧
      writeDest s' StdStream.wcoutS = r2 ∧
      writeDest s' StdStream.cerrS = e1 ∧
      writeDest s' StdStream.wcerrS = e2 :=
  ⟨_, _, rfl, rfl, rfl, rfl, rfl⟩

/-- Claim C4: Enable while either channel is already active, and Disable
while the redirector is inactive, signal the misuse error (none) instead
of silently succeeding; as the operations return no new state on the
error path, the redirector state (in particular the captured original
buffer) and the streams are untouched. -/
theorem misuse_rejected (c : StandardOutputConsoleRedirection) (s : Streams) :
    (c.m_redirector.active = true ∨ c.m_wredirector.active = true →
      enable c s = none) ∧
    (c.m_redirector.active = false ∧ c.m_wredirector.active = false →
      disable c s = none) := by
  obtain ⟨⟨rn, orign, an⟩, ⟨rw, origw, aw⟩⟩ := c
  constructor
  · intro h
    cases an <;> cases aw <;> simp_all [enable, enableWith]
  · intro h
    cases an <;> cases aw <;> simp_all [disable, StreamRedirector.reset]

/-- Witness for claim C4: a doubly-enabled call and a spurious Disable at
concrete states are both rejected. -/
theorem misuse_rejected_witness :
    enable (confC 10 11 0 1 true) (confS 10 11 0 1 2 3 7 true) = none ∧
    disable (confC 10 11 0 1 false) (confS 10 11 0 1 2 3 7 false) = none :=
  ⟨(misuse_rejected _ _).1 (Or.inl (by decide)),
   (misuse_rejected _ _).2 ⟨by decide, by decide⟩⟩

/-- Claim C5: destroying a still active redirector performs the
equivalent of Disable before the owned buffers are released: for any
Enable that succeeded from a clean inactive state, destruction of the
resulting active redirector leaves the streams exactly as they were
before the Enable, so a write made immediately after destruction reaches
the pre-redirection destination and no stream is left pointing at a
released replacement buffer. -/
theorem destruction_restores_streams (c c' : StandardOutputConsoleRedirection)
    (s s' : Streams) (h : inactiveClean c)
    (he : enable c s = some (c', s')) :
    destroy c' s' = s := by
  obtain ⟨⟨rn, orign, an⟩, ⟨rw, origw, aw⟩⟩ := c
  simp only [inactiveClean] at h
  obtain ⟨rfl, rfl, rfl, rfl⟩ := h
  simp only [enable, enableWith, Option.some.injEq] at he
  obtain ⟨rfl, rfl⟩ := he
  rfl

/-- Witness for claim C5: destruction of the concrete active state
produced by Enable restores the concrete pre-redirection streams. -/
theorem destruction_restores_streams_witness :
    destroy (confC 10 11 0 1 true) (confS 10 11 0 1 2 3 7 true)
      = confS 10 11 0 1 2 3 7 false :=
  destruction_restores_streams (confC 10 11 0 1 false) _
    (confS 10 11 0 1 2 3 7 false) _ (by decide) (by decide)

/-- Claim C6: Enable is all or nothing.  From a clean inactive state,
whatever the installation outcomes of the two channels: the attempt never
reports misuse; when it fails (in particular when the wide installation
fails after the narrow swap already succeeded) the returned state is
exactly the original one, the succeeded swap having been rolled back; and
when it succeeds both channels are active.  A state with exactly one of
the two streams redirected is never returned. -/
theorem enable_all_or_nothing (failNarrow failWide : Bool)
    (c : StandardOutputConsoleRedirection) (s : Streams)
    (h : inactiveClean c) :
    (enableWith failNarrow failWide c s ≠ EnableResult.misuse) ∧
    (∀ c' s', enableWith failNarrow failWide c s = EnableResult.failed c' s' →
      c' = c ∧ s' = s) ∧
    (∀ c' s', enableWith failNarrow failWide c s = EnableResult.ok c' s' →
      c'.m_redirector.active = true ∧ c'.m_wredirector.active = true) := by
  obtain ⟨⟨rn, orign, an⟩, ⟨rw, origw, aw⟩⟩ := c
  simp only [inactiveClean] at h
  obtain ⟨rfl, rfl, rfl, rfl⟩ := h
  cases failNarrow with
  | true =>
    refine ⟨by simp [enableWith], ?_, ?_⟩
    · intro c' s' heq
      simp only [enableWith] at heq
      obtain ⟨rfl, rfl⟩ := heq
      exact ⟨rfl, rfl⟩
    · intro c' s' heq
      simp [enableWith] at heq
  | false =>
    cases failWide with
    | true =>
      refine ⟨by simp [enableWith], ?_, ?_⟩
      · intro c' s' heq
        simp only [enableWith] at heq
        obtain ⟨rfl, rfl⟩ := heq
        exact ⟨rfl, rfl⟩
      · intro c' s' heq
        simp [enableWith] at heq
    | false =>
      refine ⟨by simp [enableWith], ?_, ?_⟩
      · intro c' s' heq
        simp [enableWith] at heq
      · intro c' s' heq
        simp only [enableWith] at heq
        obtain ⟨rfl, rfl⟩ := heq
        exact ⟨rfl, rfl⟩

/-- Witness for claim C6: with the wide installation failing after the
narrow swap succeeded, the returned state is exactly the original one. -/
theorem enable_all_or_nothing_witness :
    confC 10 11 0 1 false = confC 10 11 0 1 false ∧
    confS 10 11 0 1 2 3 7 false = confS 10 11 0 1 2 3 7 false :=
  (enable_all_or_nothing false true (confC 10 11 0 1 false)
      (confS 10 11 0 1 2 3 7 false) (by decide)).2.1 _ _ (by decide)

/-- Claim C7: in every state reachable through construction, Enable and
Disable, the narrow and the wide channels are active together or inactive
together: the aggregate drives them only as a pair. -/
theorem channels_paired (c : StandardOutputConsoleRedirection) (s : Streams)
    (h : Reachable c s) :
    c.m_redirector.active = c.m_wredirector.active :=
  (reachable_inv c s h).2.2

/-- Witness for claim C7 at a reachable state with an open window. -/
theorem channels_paired_witness :
    (confC 10 11 0 1 true).m_redirector.active
      = (confC 10 11 0 1 true).m_wredirector.active :=
  channels_paired _ (confS 10 11 0 1 2 3 7 true)
    (Reachable.enableStep _ _ _ _
      (Reachable.construct 10 11 (confS 10 11 0 1 2 3 7 false)
        (by decide) (by decide))
      (by decide))

/-- Claim C8: in every reachable state each channel satisfies the channel
invariant: its replacement buffer is installed on the stream if and only
if the channel is active, the captured original is a valid buffer
distinct from the replacement whenever active, and the capture is cleared
once the channel is deactivated. -/
theorem channel_invariant_holds (c : StandardOutputConsoleRedirection)
    (s : Streams) (h : Reachable c s) :
    ChannelInv c.m_redirector s.coutBuf ∧
    ChannelInv c.m_wredirector s.wcoutBuf :=
  ⟨(reachable_inv c s h).1, (reachable_inv c s h).2.1⟩

/-- Witness for claim C8 at the freshly constructed state. -/
theorem channel_invariant_holds_witness :
    ChannelInv ⟨10, none, false⟩ 0 ∧ ChannelInv ⟨11, none, false⟩ 1 :=
  channel_invariant_holds _ (confS 10 11 0 1 2 3 7 false)
    (Reachable.construct 10 11 _ (by decide) (by decide))

/-- Claim C9: Invoke-NativeCommand raises exactly on a non-zero exit
code: exit code zero returns normally and never raises, and every
non-zero exit code raises. -/
theorem invokeNativeCommand_raises_iff_nonzero (exitCode : Int) :
    (exitCode = 0 → invokeNativeCommand exitCode = Except.ok ()) ∧
    (exitCode ≠ 0 → invokeNativeCommand exitCode = Except.error exitCode) := by
  constructor
  · intro h
    subst h
    rfl
  · intro h
    have hd : decide (exitCode = 0) = false := decide_eq_false h
    simp [invokeNativeCommand, hd]

/-- Witness for claim C9 at exit codes 0 and 5. -/
theorem invokeNativeCommand_raises_iff_nonzero_witness :
    invokeNativeCommand 0 = Except.ok () ∧
    invokeNativeCommand 5 = Except.error 5 :=
  ⟨(invokeNativeCommand_raises_iff_nonzero 0).1 rfl,
   (invokeNativeCommand_raises_iff_nonzero 5).2 (by decide)⟩

/-- Claim C10: when cmake.exe is neither on the PATH nor at any probed
Visual Studio location, Build-Orc reports the error and returns at once:
no CMake invocation (version, configure, build or install) is made for
any architecture or configuration. -/
theorem buildOrc_stops_without_cmake (probe : String → Option String)
    (archs configs : List String)
    (h : ∀ loc ∈ cmakeLocations, probe loc = none) :
    buildOrc none probe archs configs
      = Except.error "Cannot find cmake.exe" := by
  have hf : firstFound probe cmakeLocations = none :=
    firstFound_none probe cmakeLocations h
  simp [buildOrc, findCMake, hf]

/-- Witness for claim C10: a probe resolving nothing yields the error
for a two architecture, two configuration request. -/
theorem buildOrc_stops_without_cmake_witness :
    buildOrc none (fun _ => none) ["x86", "x64"] ["Debug", "MinSizeRel"]
      = Except.error "Cannot find cmake.exe" :=
  buildOrc_stops_without_cmake _ _ _ (fun _ _ => rfl)

end OrcSpec
